import Mathlib

/-!
# A model of the VectorDB engine (`src/vectordb/vectorstore.rs`)

This file is a shallow embedding of the engine in `vectorstore.rs`:
the collection registry, the embedded key-value store, the per-collection
ANN index handle, and the public operations `create_collection`,
`get_collection_by_name`, `list_collections`, `add_document`,
`add_documents`, `search` and `get_memory_stats`.

Modelling conventions:
* The engine is modelled sequentially: every operation takes the whole
  `VectorDB` state and returns its result together with the new state
  (read-only operations, which in the source take `&self` and only read
  locks, return just their result).  Locks and `Arc` sharing are elided.
* `f32` and `f64` vector components are opaque type parameters `F32` and
  `F64`: the engine never performs arithmetic on components, it only
  measures lengths, copies vectors, and hands them to the external
  `hnsw_rs` index.  The `as f32` narrowing in `add_documents` is an
  abstract function `f64ToF32`.
* The RocksDB store is an association list of keys to values plus a
  fault-injection set `failing` of keys on which every disk operation
  fails, modelling the `Err` branch of the RocksDB API.  `write_batch`
  is atomic: it applies all puts or none.
* Byte-string values are modelled by their provenance (`Val`): the JSON
  bytes of a `CollectionMeta` (`serde_json::to_vec`), the `rkyv` bytes of
  an embedding, or the UTF-8 bytes of a `String`.  The only byte-level
  reads the engine performs are `String::from_utf8_lossy` on values it
  itself wrote with `as_bytes`, so the lossy decoder is the identity on
  `strBytes` (and irrelevant elsewhere, modelled as `""`).
* The HNSW graph of `hnsw_rs` is external code; the index is modelled by
  its insertion log, and graph traversal is an abstract parameter
  `annSearch` receiving the log, the query, `top_k` and the `ef_search`
  value that `MetricIndex::search` computes.
* A `Result` that the source `.unwrap()`s is modelled by the `panicked`
  outcome of `RRes`; `.unwrap()` on values that cannot fail
  (`serde_json::to_vec` of a `CollectionMeta`, lock acquisition) is
  elided, and the `rkyv` serialization error branch, unreachable for
  in-memory vectors, is elided as well.
-/

namespace VecDB

/-- The `DistanceMetric` enum of the source (`Euclidean`, `Cosine`, `Dot`). -/
inductive DistanceMetric : Type where
  | Euclidean : DistanceMetric
  | Cosine : DistanceMetric
  | Dot : DistanceMetric
deriving DecidableEq, Repr

/-- The string parser `DistanceMetric::from_str`: lowercase, then match. -/
def DistanceMetric.fromStr (s : String) : Option DistanceMetric :=
  match s.toLower with
  | "euclidean" => some DistanceMetric.Euclidean
  | "cosine" => some DistanceMetric.Cosine
  | "dot" => some DistanceMetric.Dot
  | _ => none

/-- The `CollectionMeta` struct: id, name, dimensionality, metric and
document count. -/
structure CollectionMeta : Type where
  id : Nat
  name : String
  dim : Nat
  metric : DistanceMetric
  doc_count : Nat
deriving DecidableEq, Repr

/-- A KV value, identified by its provenance: JSON bytes of a
`CollectionMeta`, `rkyv` bytes of an embedding (`Embedding { data }`), or
UTF-8 bytes of a string. -/
inductive Val (F32 : Type) : Type where
  | metaJson : CollectionMeta → Val F32
  | embBytes : List F32 → Val F32
  | strBytes : String → Val F32
deriving DecidableEq

/-- The model of `String::from_utf8_lossy`: on the UTF-8 bytes of a string
it recovers that string; the engine never applies it to the other value
kinds, so their image is irrelevant and fixed to `""`. -/
def Val.fromUtf8Lossy {F32 : Type} : Val F32 → String
  | Val.strBytes s => s
  | _ => ""

/-- The RocksDB handle: stored key-value pairs plus the set of keys on
which disk operations fail (fault injection for the `Err` branches of the
RocksDB API). -/
structure KV (F32 : Type) : Type where
  data : List (String × Val F32)
  failing : List String
deriving DecidableEq

/-- Association-list lookup (the model of map/DB key lookup). -/
def assocGet {α : Type} : List (String × α) → String → Option α
  | [], _ => none
  | (k', v) :: rest, k => if k' = k then some v else assocGet rest k

/-- Association-list insert-or-replace (the model of map/DB put). -/
def assocPut {α : Type} : List (String × α) → String → α → List (String × α)
  | [], k, v => [(k, v)]
  | (k', v') :: rest, k, v =>
      if k' = k then (k, v) :: rest else (k', v') :: assocPut rest k v

/-- Association-list in-place update at a key, if present (the model of
mutating through the shared `Arc<CollectionEntry>`). -/
def assocUpdate {α : Type} : List (String × α) → String → (α → α) → List (String × α)
  | [], _, _ => []
  | (k', v) :: rest, k, f =>
      if k' = k then (k', f v) :: rest else (k', v) :: assocUpdate rest k f

/-- `DB::get`: fails with a storage error on a failing key, otherwise
returns the stored value if any. -/
def KV.get {F32 : Type} (kv : KV F32) (k : String) : Except String (Option (Val F32)) :=
  if k ∈ kv.failing then Except.error ("storage error on key " ++ k)
  else Except.ok (assocGet kv.data k)

/-- `DB::put`: fails with a storage error on a failing key, otherwise
stores the value. -/
def KV.put {F32 : Type} (kv : KV F32) (k : String) (v : Val F32) : Except String (KV F32) :=
  if k ∈ kv.failing then Except.error ("storage error on key " ++ k)
  else Except.ok { kv with data := assocPut kv.data k v }

/-- `DB::write(WriteBatch)`: atomic multi-put — if any key of the batch
fails, nothing is applied; otherwise all puts are applied in order. -/
def KV.writeBatch {F32 : Type} (kv : KV F32) (ops : List (String × Val F32)) :
    Except String (KV F32) :=
  if ops.any (fun p => decide (p.1 ∈ kv.failing)) then Except.error "storage error in batch"
  else Except.ok { kv with data := ops.foldl (fun d p => assocPut d p.1 p.2) kv.data }

/-- A search hit of `hnsw_rs` (`Neighbour`): the point id `d_id` and the
reported distance. -/
structure Neighbour (F32 : Type) : Type where
  d_id : Nat
  distance : F32
deriving DecidableEq, Repr

/-- The `MetricIndex` HNSW handle, modelled by its insertion log: the
list of `(id, vector)` pairs in insertion order. -/
abbrev MetricIndex (F32 : Type) : Type := List (Nat × List F32)

/-- `MetricIndex::insert`: record the insertion `(id, vector)` in the log
(the source inserts into the HNSW graph). -/
def MetricIndex.insertLog {F32 : Type} (idx : MetricIndex F32) (id : Nat)
    (emb : List F32) : MetricIndex F32 :=
  idx ++ [(id, emb)]

/-- `MetricIndex::search`: compute `ef_search = max(2*top_k, 50)` and hand
the query to the HNSW graph, abstracted as `annSearch` over the insertion
log. -/
def MetricIndex.searchHits {F32 : Type}
    (annSearch : List (Nat × List F32) → List F32 → Nat → Nat → List (Neighbour F32))
    (idx : MetricIndex F32) (query : List F32) (top_k : Nat) : List (Neighbour F32) :=
  annSearch idx query top_k (max (2 * top_k) 50)

/-- The `CollectionEntry` struct: collection metadata plus the ANN index
(the source wraps both in locks inside a shared `Arc`). -/
structure CollectionEntry (F32 : Type) : Type where
  meta : CollectionMeta
  index : MetricIndex F32
deriving DecidableEq

/-- The `VectorDB` struct: the RocksDB handle, the name-to-entry registry
and the atomic id counter (which starts at 1). -/
structure VectorDB (F32 : Type) : Type where
  db : KV F32
  collections : List (String × CollectionEntry F32)
  id_counter : Nat
deriving DecidableEq

/-- A fresh engine state over an empty, non-failing store:
`VectorDB::new` with the RocksDB open elided. -/
def VectorDB.new {F32 : Type} : VectorDB F32 :=
  { db := { data := [], failing := [] }, collections := [], id_counter := 1 }

/-- `VectorDB::generate_id`: `fetch_add(1)` on the counter — returns the
old value and the advanced state. -/
def VectorDB.generate_id {F32 : Type} (s : VectorDB F32) : Nat × VectorDB F32 :=
  (s.id_counter, { s with id_counter := s.id_counter + 1 })

/-- `VectorDB::optimize_hnsw_params`: `(M, max_M0, ef_construction)` from
the dimensionality. -/
def optimize_hnsw_params (dim : Nat) : Nat × Nat × Nat :=
  let m := if dim > 768 then 8 else if dim > 384 then 12 else 16
  (m, m * 2, if dim > 768 then 100 else 150)

deriving instance DecidableEq for Except

/-- The result of a Rust call as observed by the caller: `Ok`, `Err`, or
a panic raised by `.unwrap()` on an `Err`. -/
inductive RRes (ε α : Type) : Type where
  | ok : α → RRes ε α
  | err : ε → RRes ε α
  | panicked : String → RRes ε α
deriving DecidableEq

/-- `VectorDB::create_collection`: reject duplicates, mint an id, build an
empty index, insert the entry into the in-memory registry, then persist
the metadata under `col:<name>` (the disk put follows the in-memory
insert, and a put failure is propagated with `?` without removing the
entry — exactly as in the source). -/
def VectorDB.create_collection {F32 : Type} (s : VectorDB F32) (name : String)
    (metric : DistanceMetric) (dim : Nat) :
    Except String CollectionMeta × VectorDB F32 :=
  if (assocGet s.collections name).isSome then (Except.error "duplicate", s)
  else
    let p := s.generate_id
    let meta : CollectionMeta :=
      { id := p.1, name := name, dim := dim, metric := metric, doc_count := 0 }
    let entry : CollectionEntry F32 := { meta := meta, index := [] }
    let s2 : VectorDB F32 :=
      { p.2 with collections := assocPut p.2.collections name entry }
    match s2.db.put ("col:" ++ name) (Val.metaJson meta) with
    | Except.error e => (Except.error e, s2)
    | Except.ok kv => (Except.ok meta, { s2 with db := kv })

/-- `VectorDB::get_collection_by_name`: registry lookup; clone of the
metadata or `"Collection not found"`.  Read-only. -/
def VectorDB.get_collection_by_name {F32 : Type} (s : VectorDB F32) (name : String) :
    Except String CollectionMeta :=
  match assocGet s.collections name with
  | some e => Except.ok e.meta
  | none => Except.error "Collection not found"

/-- `VectorDB::list_collections`: the metadata of every registered
collection, in registry order.  Read-only. -/
def VectorDB.list_collections {F32 : Type} (s : VectorDB F32) : List CollectionMeta :=
  s.collections.map (fun p => p.2.meta)

/-- `VectorDB::add_document`: look up the entry, enforce the dimension,
take the client id or mint one, build the atomic `vec:`/`meta:`/`content:`
batch, commit it, and only then insert into the ANN index and increment
`doc_count`. -/
def VectorDB.add_document {F32 : Type} (s : VectorDB F32) (col_name : String)
    (id : Option Nat) (embedding : List F32) (metadata content : String) :
    Except String Nat × VectorDB F32 :=
  match assocGet s.collections col_name with
  | none => (Except.error "Collection not found", s)
  | some entry =>
    if embedding.length ≠ entry.meta.dim then
      (Except.error "Embedding dimension mismatch", s)
    else
      let p := match id with
        | some i => (i, s)
        | none => s.generate_id
      let key_prefix := Nat.repr entry.meta.id ++ ":" ++ Nat.repr p.1
      let ops : List (String × Val F32) :=
        [("vec:" ++ key_prefix, Val.embBytes embedding),
         ("meta:" ++ key_prefix, Val.strBytes metadata),
         ("content:" ++ key_prefix, Val.strBytes content)]
      match p.2.db.writeBatch ops with
      | Except.error e => (Except.error e, p.2)
      | Except.ok kv =>
        (Except.ok p.1,
         { p.2 with
             db := kv,
             collections := assocUpdate p.2.collections col_name (fun en =>
               { en with
                   index := MetricIndex.insertLog en.index p.1 embedding,
                   meta := { en.meta with doc_count := en.meta.doc_count + 1 } }) })

/-- The `AddDocumentRequest` struct of `main.rs`: optional `i32` id, an
`f64` embedding, metadata, content and a collection name (the batch path
ignores the per-document collection name). -/
structure AddDocumentRequest (F64 : Type) : Type where
  id : Option Int
  embedding : List F64
  metadata : String
  content : String
  collection_name : String
deriving DecidableEq

/-- The `x as u64` cast applied to a client-supplied `i32` id:
reinterpretation modulo `2^64` (negative ids wrap around). -/
def i32AsU64 (x : Int) : Nat := (x % (2 : Int) ^ 64).toNat

/-- The `{:?}` rendering of the `Option<i32>` id used in batch error
messages: `Some(n)` or `None`. -/
def fmtDebugOptionI32 : Option Int → String
  | some x => "Some(" ++ toString x ++ ")"
  | none => "None"

/-- The per-document error string of `add_documents`:
`format!("Doc: {:?}: {}", d.id, e)`. -/
def docErrString (id : Option Int) (e : String) : String :=
  "Doc: " ++ fmtDebugOptionI32 id ++ ": " ++ e

/-- `slice::par_chunks(n)`: split a list into consecutive chunks of `n`
elements, the last chunk possibly shorter. -/
def chunksOf {α : Type} (n : Nat) (l : List α) : List (List α) :=
  match l with
  | [] => []
  | x :: xs => (x :: xs.take (n - 1)) :: chunksOf n (xs.drop (n - 1))
termination_by l.length
decreasing_by simp [List.length_drop]; omega

/-- The per-chunk loop body of `add_documents`: each document of the
chunk goes through the single-document path; ids and error strings are
collected in order. -/
def processChunk {F32 F64 : Type} (f64ToF32 : F64 → F32) (col_name : String) :
    List (AddDocumentRequest F64) → VectorDB F32 →
    List Nat × List String × VectorDB F32
  | [], s => ([], [], s)
  | d :: rest, s =>
    match VectorDB.add_document s col_name (d.id.map i32AsU64)
        (d.embedding.map f64ToF32) d.metadata d.content with
    | (Except.ok i, s') =>
      let r := processChunk f64ToF32 col_name rest s'
      (i :: r.1, r.2.1, r.2.2)
    | (Except.error e, s') =>
      let r := processChunk f64ToF32 col_name rest s'
      (r.1, docErrString d.id e :: r.2.1, r.2.2)

/-- The flattening step of `add_documents`: chunk results are collected
in chunk order and their ids and errors concatenated in order (the model
serializes the parallel chunk processing). -/
def processChunks {F32 F64 : Type} (f64ToF32 : F64 → F32) (col_name : String) :
    List (List (AddDocumentRequest F64)) → VectorDB F32 →
    List Nat × List String × VectorDB F32
  | [], s => ([], [], s)
  | c :: cs, s =>
    let r := processChunk f64ToF32 col_name c s
    let r' := processChunks f64ToF32 col_name cs r.2.2
    (r.1 ++ r'.1, r.2.1 ++ r'.2.1, r'.2.2)

/-- `VectorDB::add_documents`: an empty batch returns `Ok([])` at once;
otherwise the collection must exist, the documents are processed in
chunks of `max(len/num_cpus, 1)` through the single-document path, and
the result is `Ok(ids)` when no error was collected, `Err(errors)`
otherwise. -/
def VectorDB.add_documents {F32 F64 : Type} (f64ToF32 : F64 → F32) (numCpus : Nat)
    (s : VectorDB F32) (col_name : String) (docs : List (AddDocumentRequest F64)) :
    Except (List String) (List Nat) × VectorDB F32 :=
  if docs.isEmpty then (Except.ok [], s)
  else
    match assocGet s.collections col_name with
    | none => (Except.error ["Collection not found"], s)
    | some _ =>
      let chunk_size := max (docs.length / numCpus) 1
      let r := processChunks f64ToF32 col_name (chunksOf chunk_size docs) s
      if r.2.1.isEmpty then (Except.ok r.1, r.2.2) else (Except.error r.2.1, r.2.2)

/-- The payload-fetch loop of `VectorDB::search`: for each hit, read
`meta:<coll_id>:<doc_id>` and `content:<coll_id>:<doc_id>`; the RocksDB
`Result` of each `get` is `.unwrap()`ed (a storage failure panics), a
missing value becomes `""` via `unwrap_or_default`. -/
def searchLoop {F32 : Type} (kv : KV F32) (collection_id : Nat) :
    List (Neighbour F32) → RRes String (List (Nat × F32 × String × String))
  | [] => RRes.ok []
  | n :: rest =>
    match kv.get ("meta:" ++ (Nat.repr collection_id ++ ":" ++ Nat.repr n.d_id)) with
    | Except.error e => RRes.panicked e
    | Except.ok mv =>
      match kv.get ("content:" ++ (Nat.repr collection_id ++ ":" ++ Nat.repr n.d_id)) with
      | Except.error e => RRes.panicked e
      | Except.ok cv =>
        match searchLoop kv collection_id rest with
        | RRes.ok out =>
            RRes.ok ((n.d_id, n.distance,
              (mv.map Val.fromUtf8Lossy).getD "",
              (cv.map Val.fromUtf8Lossy).getD "") :: out)
        | r => r

/-- `VectorDB::search`: look up the entry, enforce the query dimension,
run the ANN search, then fetch payloads for each hit in the order the
index produced.  Read-only on the engine state. -/
def VectorDB.search {F32 : Type}
    (annSearch : List (Nat × List F32) → List F32 → Nat → Nat → List (Neighbour F32))
    (s : VectorDB F32) (col_name : String) (query : List F32) (top_k : Nat) :
    RRes String (List (Nat × F32 × String × String)) :=
  match assocGet s.collections col_name with
  | none => RRes.err "Collection not found"
  | some entry =>
    if query.length ≠ entry.meta.dim then RRes.err "Query dimension mismatch"
    else
      searchLoop s.db entry.meta.id
        (MetricIndex.searchHits annSearch entry.index query top_k)

/-- `VectorDB::get_memory_stats`: collection count and total document
count.  Read-only. -/
def VectorDB.get_memory_stats {F32 : Type} (s : VectorDB F32) : List (String × Nat) :=
  [("collections_count", s.collections.length),
   ("total_documents", s.collections.foldl (fun acc p => acc + p.2.meta.doc_count) 0)]

/-- The public operations of the engine facade, as one syntax, used to
state properties quantified over every operation. -/
inductive EngineOp (F32 F64 : Type) : Type where
  | create_collection (name : String) (metric : DistanceMetric) (dim : Nat)
  | get_collection_by_name (name : String)
  | list_collections
  | add_document (col_name : String) (id : Option Nat) (embedding : List F32)
      (metadata content : String)
  | add_documents (col_name : String) (docs : List (AddDocumentRequest F64))
  | search (col_name : String) (query : List F32) (top_k : Nat)
  | get_memory_stats

/-- The state transition of one engine operation (read-only operations
leave the state unchanged). -/
def applyOp {F32 F64 : Type} (f64ToF32 : F64 → F32) (numCpus : Nat)
    (op : EngineOp F32 F64) (s : VectorDB F32) : VectorDB F32 :=
  match op with
  | EngineOp.create_collection name metric dim => (s.create_collection name metric dim).2
  | EngineOp.get_collection_by_name _ => s
  | EngineOp.list_collections => s
  | EngineOp.add_document c i e m ct => (s.add_document c i e m ct).2
  | EngineOp.add_documents c docs => (VectorDB.add_documents f64ToF32 numCpus s c docs).2
  | EngineOp.search _ _ _ => s
  | EngineOp.get_memory_stats => s

/-! ## Association-list lemmas -/

theorem assocGet_assocPut {α : Type} (l : List (String × α)) (k k' : String) (v : α) :
    assocGet (assocPut l k v) k' = if k = k' then some v else assocGet l k' := by
  induction l with
  | nil => simp [assocPut, assocGet]
  | cons p rest ih =>
    obtain ⟨k1, v1⟩ := p
    by_cases h1 : k1 = k
    · subst h1
      simp only [assocPut, if_pos rfl, assocGet]
      by_cases h2 : k1 = k'
      · simp [h2]
      · simp [h2, assocGet, if_neg h2]
    · simp only [assocPut, if_neg h1, assocGet]
      by_cases h2 : k1 = k'
      · subst h2
        have : ¬ k = k1 := fun h => h1 h.symm
        simp [this]
      · simp [h2, ih]

theorem assocGet_assocUpdate {α : Type} (l : List (String × α)) (k k' : String)
    (f : α → α) :
    assocGet (assocUpdate l k f) k' =
      if k = k' then (assocGet l k').map f else assocGet l k' := by
  induction l with
  | nil => simp [assocUpdate, assocGet]
  | cons p rest ih =>
    obtain ⟨k1, v1⟩ := p
    by_cases h1 : k1 = k
    · subst h1
      simp only [assocUpdate, if_pos rfl, assocGet]
      by_cases h2 : k1 = k'
      · simp [h2]
      · simp [h2]
    · simp only [assocUpdate, if_neg h1, assocGet]
      by_cases h2 : k1 = k'
      · subst h2
        have : ¬ k = k1 := fun h => h1 h.symm
        simp [this]
      · simp [h2, ih]

theorem assocGet_isSome_assocPut {α : Type} (l : List (String × α)) (k k' : String)
    (v : α) (h : (assocGet l k').isSome) : (assocGet (assocPut l k v) k').isSome := by
  rw [assocGet_assocPut]
  by_cases hkk : k = k' <;> simp [hkk, h]

theorem assocGet_assocPut_self {α : Type} (l : List (String × α)) (k : String) (v : α) :
    assocGet (assocPut l k v) k = some v := by
  rw [assocGet_assocPut]; simp

/-! ## `chunksOf` lemmas: chunking preserves the document sequence -/

theorem chunksOf_flatten {α : Type} (n : Nat) (l : List α) : (chunksOf n l).flatten = l := by
  cases l with
  | nil => simp [chunksOf]
  | cons x xs =>
    have ih : (chunksOf n (xs.drop (n - 1))).flatten = xs.drop (n - 1) :=
      chunksOf_flatten n (xs.drop (n - 1))
    simp [chunksOf, ih]
termination_by l.length
decreasing_by simp [List.length_drop]; omega

/-! ## Characterization of `add_document` -/

theorem add_document_error_state {F32 : Type} {s s' : VectorDB F32} {c : String}
    {id : Option Nat} {e : List F32} {m ct msg : String}
    (h : s.add_document c id e m ct = (Except.error msg, s')) :
    s'.collections = s.collections ∧ s'.db = s.db := by
  unfold VectorDB.add_document at h
  cases hsc : assocGet s.collections c with
  | none =>
    rw [hsc] at h
    cases h
    exact ⟨rfl, rfl⟩
  | some entry =>
    rw [hsc] at h
    by_cases hd : e.length = entry.meta.dim
    · simp only [hd, ne_eq, not_true_eq_false, if_false] at h
      cases id with
      | some i =>
        simp only [] at h
        cases hw : KV.writeBatch s.db
            [("vec:" ++ (Nat.repr entry.meta.id ++ ":" ++ Nat.repr i), Val.embBytes e),
             ("meta:" ++ (Nat.repr entry.meta.id ++ ":" ++ Nat.repr i), Val.strBytes m),
             ("content:" ++ (Nat.repr entry.meta.id ++ ":" ++ Nat.repr i), Val.strBytes ct)] with
        | error e' => rw [hw] at h; cases h; exact ⟨rfl, rfl⟩
        | ok kv => rw [hw] at h; cases h
      | none =>
        simp only [VectorDB.generate_id] at h
        cases hw : KV.writeBatch s.db
            [("vec:" ++ (Nat.repr entry.meta.id ++ ":" ++ Nat.repr s.id_counter), Val.embBytes e),
             ("meta:" ++ (Nat.repr entry.meta.id ++ ":" ++ Nat.repr s.id_counter), Val.strBytes m),
             ("content:" ++ (Nat.repr entry.meta.id ++ ":" ++ Nat.repr s.id_counter), Val.strBytes ct)] with
        | error e' => rw [hw] at h; cases h; exact ⟨rfl, rfl⟩
        | ok kv => rw [hw] at h; cases h
    · simp only [hd, ne_eq, not_false_eq_true, if_true] at h
      cases h
      exact ⟨rfl, rfl⟩

theorem add_document_success_state {F32 : Type} {s s' : VectorDB F32} {c : String}
    {id : Option Nat} {e : List F32} {m ct : String} {did : Nat}
    (h : s.add_document c id e m ct = (Except.ok did, s')) :
    ∃ entry, assocGet s.collections c = some entry ∧
      e.length = entry.meta.dim ∧
      did = id.getD s.id_counter ∧
      s'.db.failing = s.db.failing ∧
      s'.collections = assocUpdate s.collections c (fun en =>
        { en with
            index := MetricIndex.insertLog en.index did e,
            meta := { en.meta with doc_count := en.meta.doc_count + 1 } }) ∧
      s'.db.data =
        assocPut (assocPut (assocPut s.db.data
          ("vec:" ++ (Nat.repr entry.meta.id ++ ":" ++ Nat.repr did)) (Val.embBytes e))
          ("meta:" ++ (Nat.repr entry.meta.id ++ ":" ++ Nat.repr did)) (Val.strBytes m))
          ("content:" ++ (Nat.repr entry.meta.id ++ ":" ++ Nat.repr did)) (Val.strBytes ct) ∧
      s'.id_counter = (match id with | some _ => s.id_counter | none => s.id_counter + 1) := by
  unfold VectorDB.add_document at h
  cases hsc : assocGet s.collections c with
  | none => rw [hsc] at h; cases h
  | some entry =>
    rw [hsc] at h
    by_cases hd : e.length = entry.meta.dim
    · simp only [hd, ne_eq, not_true_eq_false, if_false] at h
      refine ⟨entry, rfl, hd, ?_⟩
      cases id with
      | some i =>
        simp only [] at h
        cases hw : KV.writeBatch s.db
            [("vec:" ++ (Nat.repr entry.meta.id ++ ":" ++ Nat.repr i), Val.embBytes e),
             ("meta:" ++ (Nat.repr entry.meta.id ++ ":" ++ Nat.repr i), Val.strBytes m),
             ("content:" ++ (Nat.repr entry.meta.id ++ ":" ++ Nat.repr i), Val.strBytes ct)] with
        | error e' => rw [hw] at h; cases h
        | ok kv =>
          rw [hw] at h
          unfold KV.writeBatch at hw
          split at hw
          · cases hw
          · simp only [Except.ok.injEq] at hw
            subst hw
            simp only [Prod.mk.injEq, Except.ok.injEq] at h
            obtain ⟨h1, h2⟩ := h
            subst h1
            subst h2
            refine ⟨rfl, rfl, rfl, ?_, rfl⟩
            simp [List.foldl]
      | none =>
        simp only [VectorDB.generate_id] at h
        cases hw : KV.writeBatch s.db
            [("vec:" ++ (Nat.repr entry.meta.id ++ ":" ++ Nat.repr s.id_counter), Val.embBytes e),
             ("meta:" ++ (Nat.repr entry.meta.id ++ ":" ++ Nat.repr s.id_counter), Val.strBytes m),
             ("content:" ++ (Nat.repr entry.meta.id ++ ":" ++ Nat.repr s.id_counter), Val.strBytes ct)] with
        | error e' => rw [hw] at h; cases h
        | ok kv =>
          rw [hw] at h
          unfold KV.writeBatch at hw
          split at hw
          · cases hw
          · simp only [Except.ok.injEq] at hw
            subst hw
            simp only [Prod.mk.injEq, Except.ok.injEq] at h
            obtain ⟨h1, h2⟩ := h
            subst h1
            subst h2
            refine ⟨rfl, rfl, rfl, ?_, rfl⟩
            simp [List.foldl]
    · simp only [hd, ne_eq, not_false_eq_true, if_true] at h
      cases h

theorem add_document_success_of {F32 : Type} (s : VectorDB F32) (c : String)
    (id : Option Nat) (e : List F32) (m ct : String) (entry : CollectionEntry F32)
    (hs : assocGet s.collections c = some entry) (hd : e.length = entry.meta.dim)
    (hf : s.db.failing = []) :
    ∃ s', s.add_document c id e m ct = (Except.ok (id.getD s.id_counter), s') := by
  unfold VectorDB.add_document
  rw [hs]
  simp only [hd, ne_eq, not_true_eq_false, if_false]
  cases id with
  | some i =>
    simp only [KV.writeBatch, Option.getD]
    simp [hf]
  | none =>
    simp only [VectorDB.generate_id, KV.writeBatch, Option.getD]
    simp [hf]

/-! ## State growth: what every operation preserves -/

/-- Facts preserved along engine execution: the fault set is untouched,
stored keys stay present, and every registered collection keeps its id,
dimensionality and name, never loses documents from its index, and never
sees `doc_count` decrease. -/
def EntryMono {F32 : Type} (s s' : VectorDB F32) : Prop :=
  s'.db.failing = s.db.failing ∧
  (∀ k, (assocGet s.db.data k).isSome → (assocGet s'.db.data k).isSome) ∧
  ∀ name entry, assocGet s.collections name = some entry →
    ∃ entry', assocGet s'.collections name = some entry' ∧
      entry'.meta.id = entry.meta.id ∧
      entry'.meta.dim = entry.meta.dim ∧
      entry.meta.doc_count ≤ entry'.meta.doc_count ∧
      ∀ p ∈ entry.index, p ∈ entry'.index

theorem entryMono_refl {F32 : Type} (s : VectorDB F32) : EntryMono s s :=
  ⟨rfl, fun _ h => h, fun _ entry h => ⟨entry, h, rfl, rfl, Nat.le_refl _, fun _ hp => hp⟩⟩

theorem entryMono_trans {F32 : Type} {s1 s2 s3 : VectorDB F32}
    (h12 : EntryMono s1 s2) (h23 : EntryMono s2 s3) : EntryMono s1 s3 := by
  obtain ⟨hf12, hk12, he12⟩ := h12
  obtain ⟨hf23, hk23, he23⟩ := h23
  refine ⟨hf23.trans hf12, fun k hk => hk23 k (hk12 k hk), fun name entry h1 => ?_⟩
  obtain ⟨e2, hg2, hid2, hdim2, hc2, hi2⟩ := he12 name entry h1
  obtain ⟨e3, hg3, hid3, hdim3, hc3, hi3⟩ := he23 name e2 hg2
  exact ⟨e3, hg3, hid3.trans hid2, hdim3.trans hdim2, hc2.trans hc3,
    fun p hp => hi3 p (hi2 p hp)⟩

theorem add_document_entryMono {F32 : Type} (s : VectorDB F32) (c : String)
    (id : Option Nat) (e : List F32) (m ct : String) :
    EntryMono s (s.add_document c id e m ct).2 := by
  cases h : s.add_document c id e m ct with
  | mk r s' =>
    cases r with
    | error msg =>
      obtain ⟨hc, hdb⟩ := add_document_error_state h
      exact ⟨by rw [hdb], fun k hk => by rw [hdb]; exact hk, fun name entry hg =>
        ⟨entry, by rw [hc]; exact hg, rfl, rfl, Nat.le_refl _, fun _ hp => hp⟩⟩
    | ok did =>
      obtain ⟨entry, hsc, hdim, hdid, hfail, hcols, hdata, hcnt⟩ :=
        add_document_success_state h
      refine ⟨hfail, ?_, ?_⟩
      · intro k hk
        rw [hdata]
        exact assocGet_isSome_assocPut _ _ _ _
          (assocGet_isSome_assocPut _ _ _ _ (assocGet_isSome_assocPut _ _ _ _ hk))
      · intro name entry' hg
        rw [hcols, assocGet_assocUpdate]
        by_cases hcn : c = name
        · subst hcn
          rw [if_pos rfl, hg]
          exact ⟨_, rfl, rfl, rfl, Nat.le_succ _, fun p hp => by
            simp [MetricIndex.insertLog]
            exact Or.inl hp⟩
        · rw [if_neg hcn]
          exact ⟨entry', hg, rfl, rfl, Nat.le_refl _, fun _ hp => hp⟩

theorem KV.get_not_failing {F32 : Type} (kv : KV F32) (k : String)
    (h : k ∉ kv.failing) : kv.get k = Except.ok (assocGet kv.data k) := by
  unfold KV.get
  rw [if_neg h]

theorem KV.get_failing {F32 : Type} (kv : KV F32) (k : String)
    (h : k ∈ kv.failing) : kv.get k = Except.error ("storage error on key " ++ k) := by
  unfold KV.get
  rw [if_pos h]

theorem create_collection_entryMono {F32 : Type} (s : VectorDB F32) (name : String)
    (metric : DistanceMetric) (dim : Nat) :
    EntryMono s (s.create_collection name metric dim).2 := by
  unfold VectorDB.create_collection
  cases hg0 : assocGet s.collections name with
  | some e0 =>
    simp only [hg0, Option.isSome_some, if_true]
    exact entryMono_refl s
  | none =>
    simp only [hg0, Option.isSome_none, Bool.false_eq_true, if_false, VectorDB.generate_id]
    cases hput : KV.put s.db ("col:" ++ name)
        (Val.metaJson
          { id := s.id_counter, name := name, dim := dim, metric := metric,
            doc_count := 0 }) with
    | error e =>
      simp only [hput]
      refine ⟨rfl, fun k hk => hk, fun n entry hg => ?_⟩
      have hne : ¬ name = n := by
        intro heq; subst heq; rw [hg0] at hg; cases hg
      refine ⟨entry, ?_, rfl, rfl, Nat.le_refl _, fun _ hp => hp⟩
      show assocGet (assocPut s.collections name _) n = some entry
      rw [assocGet_assocPut, if_neg hne]
      exact hg
    | ok kv =>
      simp only [hput]
      unfold KV.put at hput
      split at hput
      · cases hput
      · simp only [Except.ok.injEq] at hput
        subst hput
        refine ⟨rfl, fun k hk => assocGet_isSome_assocPut _ _ _ _ hk, fun n entry hg => ?_⟩
        have hne : ¬ name = n := by
          intro heq; subst heq; rw [hg0] at hg; cases hg
        refine ⟨entry, ?_, rfl, rfl, Nat.le_refl _, fun _ hp => hp⟩
        show assocGet (assocPut s.collections name _) n = some entry
        rw [assocGet_assocPut, if_neg hne]
        exact hg

theorem processChunk_entryMono {F32 F64 : Type} (f64ToF32 : F64 → F32) (c : String)
    (docs : List (AddDocumentRequest F64)) (s : VectorDB F32) :
    EntryMono s (processChunk f64ToF32 c docs s).2.2 := by
  induction docs generalizing s with
  | nil => exact entryMono_refl s
  | cons d rest ih =>
    unfold processChunk
    cases h : VectorDB.add_document s c (d.id.map i32AsU64) (d.embedding.map f64ToF32)
        d.metadata d.content with
    | mk r s' =>
      have hmono : EntryMono s s' := by
        have := add_document_entryMono s c (d.id.map i32AsU64)
          (d.embedding.map f64ToF32) d.metadata d.content
        rw [h] at this
        exact this
      cases r with
      | ok i => exact entryMono_trans hmono (ih s')
      | error e => exact entryMono_trans hmono (ih s')

theorem processChunks_entryMono {F32 F64 : Type} (f64ToF32 : F64 → F32) (c : String)
    (cs : List (List (AddDocumentRequest F64))) (s : VectorDB F32) :
    EntryMono s (processChunks f64ToF32 c cs s).2.2 := by
  induction cs generalizing s with
  | nil => exact entryMono_refl s
  | cons ch rest ih =>
    unfold processChunks
    exact entryMono_trans (processChunk_entryMono f64ToF32 c ch s) (ih _)

theorem add_documents_entryMono {F32 F64 : Type} (f64ToF32 : F64 → F32)
    (numCpus : Nat) (s : VectorDB F32) (c : String)
    (docs : List (AddDocumentRequest F64)) :
    EntryMono s (VectorDB.add_documents f64ToF32 numCpus s c docs).2 := by
  unfold VectorDB.add_documents
  by_cases hemp : docs.isEmpty
  · simp only [hemp, if_true]
    exact entryMono_refl s
  · simp only [hemp, if_false]
    cases hg : assocGet s.collections c with
    | none => exact entryMono_refl s
    | some entry =>
      simp only []
      by_cases he : (processChunks f64ToF32 c
          (chunksOf (max (docs.length / numCpus) 1) docs) s).2.1.isEmpty
      · simp only [he, if_true]
        exact processChunks_entryMono f64ToF32 c _ s
      · simp only [he, if_false]
        exact processChunks_entryMono f64ToF32 c _ s

/-! ## The batch path: error lists and chunk decomposition -/

theorem add_document_dim_mismatch {F32 : Type} (s : VectorDB F32) (c : String)
    (id : Option Nat) (e : List F32) (m ct : String) (entry : CollectionEntry F32)
    (hs : assocGet s.collections c = some entry) (hd : e.length ≠ entry.meta.dim) :
    s.add_document c id e m ct = (Except.error "Embedding dimension mismatch", s) := by
  unfold VectorDB.add_document
  rw [hs]
  simp only [ne_eq, hd, not_false_eq_true, if_true]

/-- The list of error strings that the batch path produces for the
documents of a batch whose embedding length differs from the collection
dimensionality `D`, in input order. -/
def errsOf {F64 : Type} (D : Nat) (docs : List (AddDocumentRequest F64)) : List String :=
  docs.filterMap (fun d =>
    if d.embedding.length = D then none
    else some (docErrString d.id "Embedding dimension mismatch"))

theorem errsOf_length {F64 : Type} (D : Nat) (docs : List (AddDocumentRequest F64)) :
    (errsOf D docs).length =
      (docs.filter (fun d => !(d.embedding.length == D))).length := by
  induction docs with
  | nil => rfl
  | cons d rest ih =>
    by_cases hd : d.embedding.length = D
    · simp only [errsOf, List.filterMap_cons, hd, if_pos rfl, List.filter_cons,
        beq_self_eq_true, Bool.not_true, Bool.false_eq_true, if_false]
      exact ih
    · simp only [errsOf, List.filterMap_cons, if_neg hd, List.filter_cons]
      have hb : (d.embedding.length == D) = false := by
        simp [hd]
      simp only [hb, Bool.not_false, if_true, List.length_cons]
      rw [← ih]
      rfl

theorem length_filter_add_length_filter_not {α : Type} (p : α → Bool) (l : List α) :
    (l.filter p).length + (l.filter (fun a => !(p a))).length = l.length := by
  induction l with
  | nil => rfl
  | cons a rest ih =>
    cases hp : p a <;> simp [List.filter, hp, Nat.succ_eq_add_one] <;> omega

theorem processChunk_cons {F32 F64 : Type} (f64ToF32 : F64 → F32) (c : String)
    (d : AddDocumentRequest F64) (rest : List (AddDocumentRequest F64))
    (s : VectorDB F32) :
    processChunk f64ToF32 c (d :: rest) s =
      match VectorDB.add_document s c (d.id.map i32AsU64)
          (d.embedding.map f64ToF32) d.metadata d.content with
      | (Except.ok i, s') =>
        (i :: (processChunk f64ToF32 c rest s').1,
         (processChunk f64ToF32 c rest s').2.1,
         (processChunk f64ToF32 c rest s').2.2)
      | (Except.error e, s') =>
        ((processChunk f64ToF32 c rest s').1,
         docErrString d.id e :: (processChunk f64ToF32 c rest s').2.1,
         (processChunk f64ToF32 c rest s').2.2) := rfl

theorem processChunk_append {F32 F64 : Type} (f64ToF32 : F64 → F32) (c : String)
    (l1 l2 : List (AddDocumentRequest F64)) (s : VectorDB F32) :
    processChunk f64ToF32 c (l1 ++ l2) s =
      ((processChunk f64ToF32 c l1 s).1 ++
         (processChunk f64ToF32 c l2 (processChunk f64ToF32 c l1 s).2.2).1,
       (processChunk f64ToF32 c l1 s).2.1 ++
         (processChunk f64ToF32 c l2 (processChunk f64ToF32 c l1 s).2.2).2.1,
       (processChunk f64ToF32 c l2 (processChunk f64ToF32 c l1 s).2.2).2.2) := by
  induction l1 generalizing s with
  | nil => simp [processChunk]
  | cons d rest ih =>
    simp only [List.cons_append, processChunk_cons]
    cases h : VectorDB.add_document s c (d.id.map i32AsU64)
        (d.embedding.map f64ToF32) d.metadata d.content with
    | mk r s' =>
      cases r with
      | ok i => simp [ih]
      | error e => simp [ih]

theorem processChunks_cons {F32 F64 : Type} (f64ToF32 : F64 → F32) (c : String)
    (ch : List (AddDocumentRequest F64)) (cs : List (List (AddDocumentRequest F64)))
    (s : VectorDB F32) :
    processChunks f64ToF32 c (ch :: cs) s =
      ((processChunk f64ToF32 c ch s).1 ++
         (processChunks f64ToF32 c cs (processChunk f64ToF32 c ch s).2.2).1,
       (processChunk f64ToF32 c ch s).2.1 ++
         (processChunks f64ToF32 c cs (processChunk f64ToF32 c ch s).2.2).2.1,
       (processChunks f64ToF32 c cs (processChunk f64ToF32 c ch s).2.2).2.2) := rfl

theorem processChunks_eq_flatten {F32 F64 : Type} (f64ToF32 : F64 → F32) (c : String)
    (cs : List (List (AddDocumentRequest F64))) (s : VectorDB F32) :
    processChunks f64ToF32 c cs s = processChunk f64ToF32 c cs.flatten s := by
  induction cs generalizing s with
  | nil => rfl
  | cons ch rest ih =>
    rw [processChunks_cons, ih, List.flatten_cons, processChunk_append]

theorem processChunk_spec {F32 F64 : Type} (f64ToF32 : F64 → F32) (c : String)
    (D CID : Nat) (docs : List (AddDocumentRequest F64)) :
    ∀ (s : VectorDB F32) (entry : CollectionEntry F32),
      assocGet s.collections c = some entry → entry.meta.dim = D →
      entry.meta.id = CID → s.db.failing = [] →
      (processChunk f64ToF32 c docs s).2.1 = errsOf D docs ∧
      (processChunk f64ToF32 c docs s).1.length =
        (docs.filter (fun d => d.embedding.length == D)).length ∧
      (errsOf D docs = [] →
        ∀ pr ∈ docs.zip (processChunk f64ToF32 c docs s).1, ∀ x, pr.1.id = some x →
          pr.2 = i32AsU64 x) ∧
      (∀ d ∈ docs, d.embedding.length = D →
        ∃ i entry',
          assocGet (processChunk f64ToF32 c docs s).2.2.collections c = some entry' ∧
          (i, d.embedding.map f64ToF32) ∈ entry'.index ∧
          (assocGet (processChunk f64ToF32 c docs s).2.2.db.data
            ("vec:" ++ (Nat.repr CID ++ ":" ++ Nat.repr i))).isSome) := by
  induction docs with
  | nil =>
    intro s entry hs hdim hid hf
    refine ⟨rfl, rfl, ?_, ?_⟩
    · intro _ pr hpr
      cases hpr
    · intro d hd
      cases hd
  | cons d rest ih =>
    intro s entry hs hdim hid hf
    by_cases hgood : d.embedding.length = D
    · have hlen : (d.embedding.map f64ToF32).length = entry.meta.dim := by
        rw [List.length_map, hgood, hdim]
      obtain ⟨s', hadd⟩ := add_document_success_of s c (d.id.map i32AsU64)
        (d.embedding.map f64ToF32) d.metadata d.content entry hs hlen hf
      obtain ⟨entry0, hs0, _, _, hfail, hcols, hdata, _⟩ :=
        add_document_success_state hadd
      rw [hs] at hs0
      injection hs0 with hs0
      subst hs0
      have hsome' : ∃ entryS,
          assocGet s'.collections c = some entryS ∧
          entryS.meta.dim = D ∧ entryS.meta.id = CID ∧
          entryS.index = entry.index ++
            [((d.id.map i32AsU64).getD s.id_counter, d.embedding.map f64ToF32)] := by
        rw [hcols, assocGet_assocUpdate, if_pos rfl, hs]
        simp only [Option.map_some]
        exact ⟨_, rfl, hdim, hid, rfl⟩
      obtain ⟨entryS, hgetS, hdimS, hidS, hidxS⟩ := hsome'
      have hf' : s'.db.failing = [] := hfail.trans hf
      obtain ⟨ie, il, iz, ip⟩ := ih s' entryS hgetS hdimS hidS hf'
      obtain ⟨mf, mkey, ment⟩ := processChunk_entryMono f64ToF32 c rest s'
      have herrs : errsOf D (d :: rest) = errsOf D rest := by
        simp [errsOf, hgood]
      have hbeq : (d.embedding.length == D) = true := by
        simp [hgood]
      simp only [processChunk_cons, hadd]
      refine ⟨?_, ?_, ?_, ?_⟩
      · rw [herrs]
        exact ie
      · simp only [List.length_cons, List.filter_cons, hbeq, if_true, il]
      · intro hnil pr hpr x hx
        rw [herrs] at hnil
        rw [List.zip_cons_cons] at hpr
        rcases List.mem_cons.mp hpr with heq | hmem
        · subst heq
          have hx' : d.id = some x := hx
          rw [hx']
          rfl
        · exact iz hnil pr hmem x hx
      · intro d' hd' hgood'
        rcases List.mem_cons.mp hd' with heq | hmem
        · subst heq
          obtain ⟨entryF, hgF, _, _, _, hmemF⟩ := ment c entryS hgetS
          refine ⟨(d'.id.map i32AsU64).getD s.id_counter, entryF, hgF, ?_, ?_⟩
          · apply hmemF
            rw [hidxS]
            exact List.mem_append_right _ (List.mem_singleton.mpr rfl)
          · apply mkey
            rw [hid] at hdata
            rw [hdata]
            refine assocGet_isSome_assocPut _ _ _ _
              (assocGet_isSome_assocPut _ _ _ _ ?_)
            rw [assocGet_assocPut_self]
            rfl
        · exact ip d' hmem hgood'
    · have hne : (d.embedding.map f64ToF32).length ≠ entry.meta.dim := by
        rw [List.length_map, hdim]
        exact hgood
      have hadd := add_document_dim_mismatch s c (d.id.map i32AsU64)
        (d.embedding.map f64ToF32) d.metadata d.content entry hs hne
      obtain ⟨ie, il, iz, ip⟩ := ih s entry hs hdim hid hf
      have herrs : errsOf D (d :: rest) =
          docErrString d.id "Embedding dimension mismatch" :: errsOf D rest := by
        simp [errsOf, hgood]
      have hbeq : (d.embedding.length == D) = false := by
        simp [hgood]
      simp only [processChunk_cons, hadd]
      refine ⟨?_, ?_, ?_, ?_⟩
      · rw [herrs, ie]
      · simp only [List.filter_cons, hbeq, Bool.false_eq_true, if_false, il]
      · intro hnil
        rw [herrs] at hnil
        cases hnil
      · intro d' hd' hgood'
        rcases List.mem_cons.mp hd' with heq | hmem
        · subst heq
          exact absurd hgood' hgood
        · exact ip d' hmem hgood'

/-! ## The payload-fetch loop of `search` -/

theorem searchLoop_ok {F32 : Type} (kv : KV F32) (cid : Nat)
    (hits : List (Neighbour F32))
    (h : ∀ n ∈ hits,
      ("meta:" ++ (Nat.repr cid ++ ":" ++ Nat.repr n.d_id)) ∉ kv.failing ∧
      ("content:" ++ (Nat.repr cid ++ ":" ++ Nat.repr n.d_id)) ∉ kv.failing) :
    searchLoop kv cid hits =
      RRes.ok (hits.map (fun n =>
        (n.d_id, n.distance,
         ((assocGet kv.data ("meta:" ++ (Nat.repr cid ++ ":" ++ Nat.repr n.d_id))).map
            Val.fromUtf8Lossy).getD "",
         ((assocGet kv.data ("content:" ++ (Nat.repr cid ++ ":" ++ Nat.repr n.d_id))).map
            Val.fromUtf8Lossy).getD ""))) := by
  induction hits with
  | nil => rfl
  | cons n rest ih =>
    obtain ⟨hm, hc⟩ := h n (List.mem_cons_self n rest)
    have hrest := ih (fun n' hn' => h n' (List.mem_cons_of_mem n hn'))
    unfold searchLoop
    rw [KV.get_not_failing _ _ hm, KV.get_not_failing _ _ hc, hrest]
    simp

theorem searchLoop_no_panic {F32 : Type} (kv : KV F32) (cid : Nat)
    (hits : List (Neighbour F32)) (hf : kv.failing = []) (msg : String) :
    searchLoop kv cid hits ≠ RRes.panicked msg := by
  have h : searchLoop kv cid hits = RRes.ok _ :=
    searchLoop_ok kv cid hits (fun n _ => by rw [hf]; exact ⟨List.not_mem_nil _, List.not_mem_nil _⟩)
  rw [h]
  intro hc
  cases hc

theorem searchLoop_panicked_of_failing {F32 : Type} (kv : KV F32) (cid : Nat)
    (n : Neighbour F32) (rest : List (Neighbour F32))
    (h : ("meta:" ++ (Nat.repr cid ++ ":" ++ Nat.repr n.d_id)) ∈ kv.failing) :
    ∃ msg, searchLoop kv cid (n :: rest) = RRes.panicked msg := by
  unfold searchLoop
  rw [KV.get_failing _ _ h]
  exact ⟨_, rfl⟩

/-! ## Claims -/

/-- Claim C1: evaluation of `create_collection` at a state whose disk put
of `col:c` fails.  The source inserts the entry into the in-memory
registry before the disk put and does not remove it when the put fails,
so the create returns an error, yet the entry stays fully observable:
`get_collection_by_name` returns the metadata, `list_collections`
contains the name, `add_document` on the name succeeds, and `search` does
not report `CollectionNotFound`. -/
theorem c1_create_collection_not_atomic_eval :
    let s0 : VectorDB Nat :=
      { db := { data := [], failing := ["col:c"] }, collections := [], id_counter := 1 }
    let r := s0.create_collection "c" DistanceMetric.Cosine 3
    (r.1 = Except.error "storage error on key col:c") ∧
    (r.2.get_collection_by_name "c" =
      Except.ok
        { id := 1, name := "c", dim := 3, metric := DistanceMetric.Cosine,
          doc_count := 0 }) ∧
    ((r.2.list_collections).map CollectionMeta.name = ["c"]) ∧
    ((r.2.add_document "c" (some 5) [7, 7, 7] "m" "ct").1 = Except.ok 5) ∧
    (VectorDB.search (fun _ _ _ _ => []) r.2 "c" [0, 0, 0] 1 = RRes.ok []) := by
  exact ⟨rfl, rfl, rfl, rfl, rfl⟩

/-- Claim C3, counterexample: `add_documents` with an empty document list
returns the success value `Ok([])`, not the `EmptyBatch` error the claim
states. -/
theorem c3_counterexample_empty_batch_returns_ok :
    (VectorDB.add_documents (fun x : Nat => x) 4 (VectorDB.new : VectorDB Nat)
      "nosuch" []).1 = Except.ok [] := rfl

/-- Claim C3, amended: `add_documents` called with an empty document list
returns `Ok` with an empty id list and an unchanged state (it
short-circuits before even looking up the collection). -/
theorem c3_amended_empty_batch_is_ok {F32 F64 : Type} (f64ToF32 : F64 → F32)
    (numCpus : Nat) (s : VectorDB F32) (col_name : String) :
    VectorDB.add_documents f64ToF32 numCpus s col_name [] = (Except.ok [], s) := rfl

/-- Claim C4, counterexample: two successful `add_document` calls on the
same collection with the same client-supplied id both succeed and return
the same id `7`, so `(collection_id, id)` is not unique. -/
theorem c4_counterexample_duplicate_client_ids :
    let s0 : VectorDB Nat := VectorDB.new
    let r1 := s0.create_collection "c" DistanceMetric.Euclidean 1
    let a1 := r1.2.add_document "c" (some 7) [3] "m1" "c1"
    let a2 := a1.2.add_document "c" (some 7) [4] "m2" "c2"
    a1.1 = Except.ok 7 ∧ a2.1 = Except.ok 7 := by
  exact ⟨rfl, rfl⟩

/-- Claim C4, amended: ids minted by the allocator are distinct — two
sequentially successful `add_document` calls that both leave the id to
the allocator return different document ids (the source performs no
uniqueness check on client-supplied ids). -/
theorem c4_amended_minted_ids_distinct {F32 : Type} {s s1 s2 : VectorDB F32}
    {c c' : String} {e e' : List F32} {m ct m' ct' : String} {i1 i2 : Nat}
    (h1 : s.add_document c none e m ct = (Except.ok i1, s1))
    (h2 : s1.add_document c' none e' m' ct' = (Except.ok i2, s2)) :
    i1 ≠ i2 := by
  obtain ⟨_, _, _, hd1, _, _, _, hc1⟩ := add_document_success_state h1
  obtain ⟨_, _, _, hd2, _, _, _, _⟩ := add_document_success_state h2
  have hi1 : i1 = s.id_counter := hd1
  have hs1 : s1.id_counter = s.id_counter + 1 := hc1
  have hi2 : i2 = s1.id_counter := hd2
  omega

/-- Witness for the amended C4 at a concrete run: the two auto-assigned
ids are `2` and `3`. -/
theorem c4_amended_witness :
    let s0 := ((VectorDB.new : VectorDB Nat).create_collection "c"
      DistanceMetric.Dot 1).2
    let a1 := s0.add_document "c" none [5] "" ""
    let a2 := a1.2.add_document "c" none [6] "" ""
    a1 = (Except.ok 2, a1.2) ∧ a2 = (Except.ok 3, a2.2) ∧ (2 : Nat) ≠ 3 := by
  intro s0 a1 a2
  have h1 : s0.add_document "c" none [5] "" "" = (Except.ok 2, a1.2) := rfl
  have h2 : a1.2.add_document "c" none [6] "" "" = (Except.ok 3, a2.2) := rfl
  exact ⟨h1, h2, c4_amended_minted_ids_distinct h1 h2⟩

/-- Claim C5, counterexample: a KV-layer failure during `search`'s payload
lookup does not come back as a `Storage` error value — the source calls
`.unwrap()` on the RocksDB result, so the call panics. -/
theorem c5_counterexample_search_panics_on_kv_failure :
    let s0 : VectorDB Nat :=
      { db := { data := [], failing := ["meta:1:1"] },
        collections := [("c",
          { meta := { id := 1, name := "c", dim := 1,
                      metric := DistanceMetric.Cosine, doc_count := 1 },
            index := [(1, [5])] })],
        id_counter := 2 }
    VectorDB.search (fun _ _ _ _ => [{ d_id := 1, distance := 0 }]) s0 "c" [9] 1 =
      RRes.panicked "storage error on key meta:1:1" := by
  exact rfl

/-- Claim C5, amended: engine operations return result values, but a
KV-layer failure during `search`'s payload lookup causes a panic (the
`Result` of `DB::get` is unwrapped) instead of being returned as a
`Storage` error; when the KV layer does not fail, `search` never
panics. -/
theorem c5_amended_search_unwraps_payload_errors :
    (∀ {F32 : Type}
      (annSearch : List (Nat × List F32) → List F32 → Nat → Nat → List (Neighbour F32))
      (s : VectorDB F32) (c : String) (q : List F32) (k : Nat)
      (entry : CollectionEntry F32) (n : Neighbour F32) (rest : List (Neighbour F32)),
      assocGet s.collections c = some entry →
      q.length = entry.meta.dim →
      MetricIndex.searchHits annSearch entry.index q k = n :: rest →
      ("meta:" ++ (Nat.repr entry.meta.id ++ ":" ++ Nat.repr n.d_id)) ∈ s.db.failing →
      ∃ msg, VectorDB.search annSearch s c q k = RRes.panicked msg) ∧
    (∀ {F32 : Type}
      (annSearch : List (Nat × List F32) → List F32 → Nat → Nat → List (Neighbour F32))
      (s : VectorDB F32) (c : String) (q : List F32) (k : Nat) (msg : String),
      s.db.failing = [] →
      VectorDB.search annSearch s c q k ≠ RRes.panicked msg) := by
  constructor
  · intro F32 annSearch s c q k entry n rest hs hq hhits hfail
    unfold VectorDB.search
    rw [hs]
    dsimp only
    rw [if_neg (by rw [hq]; exact fun h => h rfl)]
    rw [hhits]
    exact searchLoop_panicked_of_failing _ _ _ _ hfail
  · intro F32 annSearch s c q k msg hf
    unfold VectorDB.search
    cases hg : assocGet s.collections c with
    | none =>
      intro hcon
      cases hcon
    | some entry =>
      dsimp only
      by_cases hq : q.length ≠ entry.meta.dim
      · rw [if_pos hq]
        intro hcon
        cases hcon
      · rw [if_neg hq]
        exact searchLoop_no_panic _ _ _ hf msg

/-- Witness for the amended C5: with a failing `meta:` key the concrete
search panics, and on a non-failing store a concrete search does not
panic. -/
theorem c5_amended_witness :
    (∃ msg,
      VectorDB.search (fun _ _ _ _ => [{ d_id := 1, distance := 0 }])
        ({ db := { data := [], failing := ["meta:9:1"] },
           collections := [("v",
             { meta := { id := 9, name := "v", dim := 1,
                         metric := DistanceMetric.Dot, doc_count := 1 },
               index := [(1, [4])] })],
           id_counter := 2 } : VectorDB Nat) "v" [8] 1 = RRes.panicked msg) ∧
    VectorDB.search (fun _ _ _ _ => [{ d_id := 1, distance := 0 }])
        ({ db := { data := [], failing := [] },
           collections := [("v",
             { meta := { id := 9, name := "v", dim := 1,
                         metric := DistanceMetric.Dot, doc_count := 1 },
               index := [(1, [4])] })],
           id_counter := 2 } : VectorDB Nat) "v" [8] 1 ≠ RRes.panicked "boom" := by
  constructor
  · exact c5_amended_search_unwraps_payload_errors.1 _ _ _ _ _ _ _ _ rfl rfl rfl
      (by decide)
  · exact c5_amended_search_unwraps_payload_errors.2 _ _ _ _ _ _ rfl

/-- Claim C6: the atomic KV batch commit precedes the ANN index insert.
First part: whenever `add_document` returns an error — in particular when
the KV commit fails — the registry (hence every ANN index and every
`doc_count`) and the stored KV data are unchanged.  Second part: the
invariant "every id in an ANN index has its `vec:` key durably stored"
is preserved by `add_document`, so a document is never searchable without
being stored. -/
theorem c6_kv_commit_precedes_index_insert :
    (∀ {F32 : Type} (s s' : VectorDB F32) (c : String) (id : Option Nat)
      (e : List F32) (m ct msg : String),
      s.add_document c id e m ct = (Except.error msg, s') →
      s'.collections = s.collections ∧ s'.db.data = s.db.data) ∧
    (∀ {F32 : Type} (s s' : VectorDB F32) (c : String) (id : Option Nat)
      (e : List F32) (m ct : String) (r : Except String Nat),
      (∀ name en, assocGet s.collections name = some en →
        ∀ p ∈ en.index,
          (assocGet s.db.data
            ("vec:" ++ (Nat.repr en.meta.id ++ ":" ++ Nat.repr p.1))).isSome) →
      s.add_document c id e m ct = (r, s') →
      ∀ name en, assocGet s'.collections name = some en →
        ∀ p ∈ en.index,
          (assocGet s'.db.data
            ("vec:" ++ (Nat.repr en.meta.id ++ ":" ++ Nat.repr p.1))).isSome) := by
  constructor
  · intro F32 s s' c id e m ct msg h
    obtain ⟨hc, hdb⟩ := add_document_error_state h
    exact ⟨hc, by rw [hdb]⟩
  · intro F32 s s' c id e m ct r hinv h name en hget p hp
    cases r with
    | error msg =>
      obtain ⟨hc, hdb⟩ := add_document_error_state h
      rw [hc] at hget
      rw [hdb]
      exact hinv name en hget p hp
    | ok did =>
      obtain ⟨entry, hs, _, _, _, hcols, hdata, _⟩ := add_document_success_state h
      rw [hcols, assocGet_assocUpdate] at hget
      by_cases hcn : c = name
      · subst hcn
        rw [if_pos rfl, hs] at hget
        simp only [Option.map_some] at hget
        injection hget with hget
        subst hget
        have hp' : p ∈ entry.index ++ [(did, e)] := hp
        rw [hdata]
        rcases List.mem_append.mp hp' with hold | hnew
        · exact assocGet_isSome_assocPut _ _ _ _ (assocGet_isSome_assocPut _ _ _ _
            (assocGet_isSome_assocPut _ _ _ _ (hinv c entry hs p hold)))
        · have hpe : p = (did, e) := List.mem_singleton.mp hnew
          subst hpe
          refine assocGet_isSome_assocPut _ _ _ _
            (assocGet_isSome_assocPut _ _ _ _ ?_)
          rw [assocGet_assocPut_self]
          rfl
      · rw [if_neg hcn] at hget
        rw [hdata]
        exact assocGet_isSome_assocPut _ _ _ _ (assocGet_isSome_assocPut _ _ _ _
          (assocGet_isSome_assocPut _ _ _ _ (hinv name en hget p hp)))

/-- Witness for C6: a concrete failed batch commit leaves registry and
data unchanged, and after a concrete successful insert the new document's
`vec:` key is durably stored. -/
theorem c6_witness :
    let sF : VectorDB Nat :=
      { db := { data := [], failing := ["vec:1:7"] },
        collections := [("c",
          { meta := { id := 1, name := "c", dim := 1,
                      metric := DistanceMetric.Cosine, doc_count := 0 },
            index := [] })],
        id_counter := 2 }
    let b := sF.add_document "c" (some 7) [3] "m" "x"
    let sW : VectorDB Nat :=
      { db := { data := [("vec:1:1", Val.embBytes [5])], failing := [] },
        collections := [("c",
          { meta := { id := 1, name := "c", dim := 1,
                      metric := DistanceMetric.Cosine, doc_count := 1 },
            index := [(1, [5])] })],
        id_counter := 2 }
    let a := sW.add_document "c" none [6] "m" "x"
    (b.2.collections = sF.collections ∧ b.2.db.data = sF.db.data) ∧
    (assocGet a.2.db.data ("vec:" ++ (Nat.repr 1 ++ ":" ++ Nat.repr 2))).isSome := by
  intro sF b sW a
  constructor
  · exact c6_kv_commit_precedes_index_insert.1 sF b.2 "c" (some 7) [3] "m" "x"
      "storage error in batch" (by decide)
  · have hinv : ∀ name en, assocGet sW.collections name = some en →
        ∀ p ∈ en.index,
          (assocGet sW.db.data
            ("vec:" ++ (Nat.repr en.meta.id ++ ":" ++ Nat.repr p.1))).isSome := by
      intro name en hget p hp
      by_cases hcn : "c" = name
      · simp only [sW, assocGet, if_pos hcn] at hget
        injection hget with hget
        subst hget
        have hpe : p = (1, [5]) := List.mem_singleton.mp hp
        subst hpe
        decide
      · simp only [sW, assocGet, if_neg hcn] at hget
        exact Option.noConfusion hget
    exact c6_kv_commit_precedes_index_insert.2 sW a.2 "c" none [6] "m" "x" a.1
      hinv rfl "c"
      { meta := { id := 1, name := "c", dim := 1,
                  metric := DistanceMetric.Cosine, doc_count := 2 },
        index := [(1, [5]), (2, [6])] }
      rfl (2, [6]) (by decide)

theorem add_documents_eq {F32 F64 : Type} (f64ToF32 : F64 → F32) (numCpus : Nat)
    (s : VectorDB F32) (c : String) (docs : List (AddDocumentRequest F64))
    (entry : CollectionEntry F32) (hs : assocGet s.collections c = some entry)
    (hne : docs ≠ []) :
    VectorDB.add_documents f64ToF32 numCpus s c docs =
      (if (processChunk f64ToF32 c docs s).2.1.isEmpty
       then (Except.ok (processChunk f64ToF32 c docs s).1,
             (processChunk f64ToF32 c docs s).2.2)
       else (Except.error (processChunk f64ToF32 c docs s).2.1,
             (processChunk f64ToF32 c docs s).2.2)) := by
  have hemp : docs.isEmpty = false := by
    cases docs with
    | nil => exact absurd rfl hne
    | cons d rest => rfl
  unfold VectorDB.add_documents
  rw [hemp]
  simp only [Bool.false_eq_true, if_false]
  rw [hs]
  dsimp only
  rw [processChunks_eq_flatten, chunksOf_flatten]

/-- Claim C7: `add_documents` with `F` dimension-mismatched documents out
of `N` returns `Err(errors)` with exactly `F` entries; with `F = 0` it
returns `Ok(ids)` with one id per document in input order (a
client-supplied id appears at the position of its document); and every
well-dimensioned document is persisted — present in the collection's ANN
index and with its `vec:` key stored. -/
theorem c7_add_documents_partial_failure {F32 F64 : Type} (f64ToF32 : F64 → F32)
    (numCpus : Nat) (s : VectorDB F32) (c : String)
    (docs : List (AddDocumentRequest F64)) (entry : CollectionEntry F32)
    (hs : assocGet s.collections c = some entry)
    (hf : s.db.failing = []) :
    ((docs.filter (fun d => !(d.embedding.length == entry.meta.dim))).length = 0 →
      ∃ ids, (VectorDB.add_documents f64ToF32 numCpus s c docs).1 = Except.ok ids ∧
        ids.length = docs.length ∧
        ∀ pr ∈ docs.zip ids, ∀ x, pr.1.id = some x → pr.2 = i32AsU64 x) ∧
    (0 < (docs.filter (fun d => !(d.embedding.length == entry.meta.dim))).length →
      ∃ errs, (VectorDB.add_documents f64ToF32 numCpus s c docs).1 =
          Except.error errs ∧
        errs.length =
          (docs.filter (fun d => !(d.embedding.length == entry.meta.dim))).length) ∧
    (∀ d ∈ docs, d.embedding.length = entry.meta.dim →
      ∃ i entry',
        assocGet (VectorDB.add_documents f64ToF32 numCpus s c docs).2.collections c =
          some entry' ∧
        (i, d.embedding.map f64ToF32) ∈ entry'.index ∧
        (assocGet (VectorDB.add_documents f64ToF32 numCpus s c docs).2.db.data
          ("vec:" ++ (Nat.repr entry.meta.id ++ ":" ++ Nat.repr i))).isSome) := by
  cases docs with
  | nil =>
    refine ⟨?_, ?_, ?_⟩
    · intro _
      refine ⟨[], rfl, rfl, ?_⟩
      intro pr hpr
      simp at hpr
    · intro hpos
      simp at hpos
    · intro d hd
      simp at hd
  | cons d0 rest0 =>
    have hne : (d0 :: rest0) ≠ ([] : List (AddDocumentRequest F64)) := by simp
    obtain ⟨pe, pl, pz, pp⟩ := processChunk_spec f64ToF32 c entry.meta.dim
      entry.meta.id (d0 :: rest0) s entry hs rfl rfl hf
    have heq := add_documents_eq f64ToF32 numCpus s c (d0 :: rest0) entry hs hne
    have hsum := length_filter_add_length_filter_not
      (fun d : AddDocumentRequest F64 => d.embedding.length == entry.meta.dim)
      (d0 :: rest0)
    have helen := errsOf_length entry.meta.dim (d0 :: rest0)
    refine ⟨?_, ?_, ?_⟩
    · intro h0
      have hnil : errsOf entry.meta.dim (d0 :: rest0) = [] := by
        rw [← List.length_eq_zero]
        omega
      have hempt : (processChunk f64ToF32 c (d0 :: rest0) s).2.1.isEmpty = true := by
        rw [pe, hnil]
        rfl
      refine ⟨(processChunk f64ToF32 c (d0 :: rest0) s).1, ?_, ?_, ?_⟩
      · rw [heq, if_pos hempt]
      · rw [pl]
        omega
      · exact pz hnil
    · intro hpos
      have hempt : (processChunk f64ToF32 c (d0 :: rest0) s).2.1.isEmpty = false := by
        rw [pe]
        cases herr : errsOf entry.meta.dim (d0 :: rest0) with
        | nil => rw [herr] at helen; simp at helen; omega
        | cons a l => rfl
      refine ⟨(processChunk f64ToF32 c (d0 :: rest0) s).2.1, ?_, ?_⟩
      · rw [heq, if_neg (by rw [hempt]; exact fun hcon => Bool.false_ne_true hcon)]
      · rw [pe, helen]
    · intro d hd hgood
      have h22 : (VectorDB.add_documents f64ToF32 numCpus s c (d0 :: rest0)).2 =
          (processChunk f64ToF32 c (d0 :: rest0) s).2.2 := by
        rw [heq]
        by_cases hie : (processChunk f64ToF32 c (d0 :: rest0) s).2.1.isEmpty = true
        · rw [if_pos hie]
        · rw [if_neg hie]
      rw [h22]
      exact pp d hd hgood

/-- Witness for C7 at a concrete batch of three documents of which one
has the wrong dimensionality: the batch returns `Err` with exactly one
error entry, and the first good document is persisted. -/
theorem c7_witness :
    let sC : VectorDB Nat :=
      { db := { data := [], failing := [] },
        collections := [("c",
          { meta := { id := 1, name := "c", dim := 1,
                      metric := DistanceMetric.Cosine, doc_count := 0 },
            index := [] })],
        id_counter := 2 }
    let good1 : AddDocumentRequest Nat :=
      { id := some 4, embedding := [5], metadata := "", content := "",
        collection_name := "c" }
    let bad : AddDocumentRequest Nat :=
      { id := some 9, embedding := [1, 2], metadata := "", content := "",
        collection_name := "c" }
    let good2 : AddDocumentRequest Nat :=
      { id := none, embedding := [6], metadata := "", content := "",
        collection_name := "c" }
    (∃ errs,
      (VectorDB.add_documents (fun x : Nat => x) 2 sC "c" [good1, bad, good2]).1 =
        Except.error errs ∧ errs.length = 1) ∧
    (∃ i entry',
      assocGet (VectorDB.add_documents (fun x : Nat => x) 2 sC "c"
        [good1, bad, good2]).2.collections "c" = some entry' ∧
      (i, [5]) ∈ entry'.index ∧
      (assocGet (VectorDB.add_documents (fun x : Nat => x) 2 sC "c"
        [good1, bad, good2]).2.db.data
        ("vec:" ++ (Nat.repr 1 ++ ":" ++ Nat.repr i))).isSome) := by
  intro sC good1 bad good2
  constructor
  · obtain ⟨errs, h1, h2⟩ :=
      (c7_add_documents_partial_failure (fun x : Nat => x) 2 sC "c"
        [good1, bad, good2]
        { meta := { id := 1, name := "c", dim := 1,
                    metric := DistanceMetric.Cosine, doc_count := 0 },
          index := [] } rfl rfl).2.1 (by decide)
    exact ⟨errs, h1, h2.trans (by decide)⟩
  · exact (c7_add_documents_partial_failure (fun x : Nat => x) 2 sC "c"
      [good1, bad, good2]
      { meta := { id := 1, name := "c", dim := 1,
                  metric := DistanceMetric.Cosine, doc_count := 0 },
        index := [] } rfl rfl).2.2 good1 (by decide) (by decide)

/-- Claim C8: on a registered collection, `add_document` with an
embedding of the wrong length fails with the dimension-mismatch error and
returns the state completely unchanged, and `search` with a query of the
wrong length fails with the dimension-mismatch error (searches never
mutate the state). -/
theorem c8_dimension_mismatch_no_mutation :
    (∀ {F32 : Type} (s : VectorDB F32) (c : String) (id : Option Nat) (e : List F32)
      (m ct : String) (entry : CollectionEntry F32),
      assocGet s.collections c = some entry → e.length ≠ entry.meta.dim →
      s.add_document c id e m ct = (Except.error "Embedding dimension mismatch", s)) ∧
    (∀ {F32 : Type}
      (annSearch : List (Nat × List F32) → List F32 → Nat → Nat → List (Neighbour F32))
      (s : VectorDB F32) (c : String) (q : List F32) (k : Nat)
      (entry : CollectionEntry F32),
      assocGet s.collections c = some entry → q.length ≠ entry.meta.dim →
      VectorDB.search annSearch s c q k = RRes.err "Query dimension mismatch") := by
  constructor
  · intro F32 s c id e m ct entry hs hd
    exact add_document_dim_mismatch s c id e m ct entry hs hd
  · intro F32 annSearch s c q k entry hs hq
    unfold VectorDB.search
    rw [hs]
    dsimp only
    rw [if_pos hq]

/-- Witness for C8 at a concrete `dim = 3` collection and a length-1
vector: the insert is rejected with the state unchanged and the search is
rejected. -/
theorem c8_witness :
    let s3 : VectorDB Nat :=
      { db := { data := [], failing := [] },
        collections := [("c",
          { meta := { id := 1, name := "c", dim := 3,
                      metric := DistanceMetric.Euclidean, doc_count := 0 },
            index := [] })],
        id_counter := 2 }
    s3.add_document "c" none [7] "m" "x" =
      (Except.error "Embedding dimension mismatch", s3) ∧
    VectorDB.search (fun _ _ _ _ => []) s3 "c" [7] 5 =
      RRes.err "Query dimension mismatch" := by
  intro s3
  constructor
  · exact c8_dimension_mismatch_no_mutation.1 s3 "c" none [7] "m" "x"
      { meta := { id := 1, name := "c", dim := 3,
                  metric := DistanceMetric.Euclidean, doc_count := 0 },
        index := [] } rfl (by decide)
  · exact c8_dimension_mismatch_no_mutation.2 (fun _ _ _ _ => []) s3 "c" [7] 5
      { meta := { id := 1, name := "c", dim := 3,
                  metric := DistanceMetric.Euclidean, doc_count := 0 },
        index := [] } rfl (by decide)

/-- Claim C9: a successful `add_document` increments the collection's
`doc_count` by exactly one, and no engine operation ever decreases the
`doc_count` of a registered collection. -/
theorem c9_doc_count_increment_and_monotone :
    (∀ {F32 : Type} (s s' : VectorDB F32) (c : String) (id : Option Nat)
      (e : List F32) (m ct : String) (did : Nat) (entry : CollectionEntry F32),
      s.add_document c id e m ct = (Except.ok did, s') →
      assocGet s.collections c = some entry →
      ∃ entry', assocGet s'.collections c = some entry' ∧
        entry'.meta.doc_count = entry.meta.doc_count + 1) ∧
    (∀ {F32 F64 : Type} (f64ToF32 : F64 → F32) (numCpus : Nat)
      (op : EngineOp F32 F64) (s : VectorDB F32) (name : String)
      (entry : CollectionEntry F32),
      assocGet s.collections name = some entry →
      ∃ entry', assocGet (applyOp f64ToF32 numCpus op s).collections name =
          some entry' ∧
        entry.meta.doc_count ≤ entry'.meta.doc_count) := by
  constructor
  · intro F32 s s' c id e m ct did entry h hget
    obtain ⟨entry0, hs0, _, _, _, hcols, _, _⟩ := add_document_success_state h
    rw [hget] at hs0
    injection hs0 with hs0
    subst hs0
    rw [hcols, assocGet_assocUpdate, if_pos rfl, hget]
    simp only [Option.map_some]
    exact ⟨_, rfl, rfl⟩
  · intro F32 F64 f64ToF32 numCpus op s name entry hget
    cases op with
    | create_collection n metric dim =>
      dsimp only [applyOp]
      obtain ⟨e', hg, _, _, hle, _⟩ :=
        (create_collection_entryMono s n metric dim).2.2 name entry hget
      exact ⟨e', hg, hle⟩
    | get_collection_by_name n =>
      exact ⟨entry, hget, Nat.le_refl _⟩
    | list_collections =>
      exact ⟨entry, hget, Nat.le_refl _⟩
    | add_document c id e m ct =>
      dsimp only [applyOp]
      obtain ⟨e', hg, _, _, hle, _⟩ :=
        (add_document_entryMono s c id e m ct).2.2 name entry hget
      exact ⟨e', hg, hle⟩
    | add_documents c docs =>
      dsimp only [applyOp]
      obtain ⟨e', hg, _, _, hle, _⟩ :=
        (add_documents_entryMono f64ToF32 numCpus s c docs).2.2 name entry hget
      exact ⟨e', hg, hle⟩
    | search c q k =>
      exact ⟨entry, hget, Nat.le_refl _⟩
    | get_memory_stats =>
      exact ⟨entry, hget, Nat.le_refl _⟩

/-- Witness for C9: a concrete successful insert takes `doc_count` from
`0` to `1`, and a concrete `create_collection` operation does not
decrease the existing collection's count. -/
theorem c9_witness :
    let s1 : VectorDB Nat :=
      { db := { data := [], failing := [] },
        collections := [("c",
          { meta := { id := 1, name := "c", dim := 1,
                      metric := DistanceMetric.Dot, doc_count := 0 },
            index := [] })],
        id_counter := 2 }
    let a := s1.add_document "c" (some 3) [8] "m" "x"
    (∃ entry', assocGet a.2.collections "c" = some entry' ∧
      entry'.meta.doc_count = 0 + 1) ∧
    (∃ entry', assocGet (applyOp (fun x : Nat => x) 4
        (EngineOp.create_collection "d" DistanceMetric.Cosine 2) s1).collections
        "c" = some entry' ∧
      (0 : Nat) ≤ entry'.meta.doc_count) := by
  intro s1 a
  constructor
  · exact c9_doc_count_increment_and_monotone.1 s1 a.2 "c" (some 3) [8] "m" "x" 3
      { meta := { id := 1, name := "c", dim := 1,
                  metric := DistanceMetric.Dot, doc_count := 0 },
        index := [] } (by decide) rfl
  · exact c9_doc_count_increment_and_monotone.2 (fun x : Nat => x) 4
      (EngineOp.create_collection "d" DistanceMetric.Cosine 2) s1 "c"
      { meta := { id := 1, name := "c", dim := 1,
                  metric := DistanceMetric.Dot, doc_count := 0 },
        index := [] } rfl

/-- Claim C10: a successful `search` returns one tuple
`(id, distance, metadata, content)` per ANN hit, in exactly the order the
ANN index produced, where the metadata and content are read from the KV
keys `meta:<coll_id>:<doc_id>` and `content:<coll_id>:<doc_id>`, and a
missing KV value yields the empty string rather than an error. -/
theorem c10_search_returns_payload_in_index_order {F32 : Type}
    (annSearch : List (Nat × List F32) → List F32 → Nat → Nat → List (Neighbour F32))
    (s : VectorDB F32) (c : String) (q : List F32) (k : Nat)
    (entry : CollectionEntry F32)
    (hs : assocGet s.collections c = some entry)
    (hq : q.length = entry.meta.dim)
    (hok : ∀ n ∈ MetricIndex.searchHits annSearch entry.index q k,
      ("meta:" ++ (Nat.repr entry.meta.id ++ ":" ++ Nat.repr n.d_id)) ∉ s.db.failing ∧
      ("content:" ++ (Nat.repr entry.meta.id ++ ":" ++ Nat.repr n.d_id)) ∉
        s.db.failing) :
    VectorDB.search annSearch s c q k =
      RRes.ok ((MetricIndex.searchHits annSearch entry.index q k).map (fun n =>
        (n.d_id, n.distance,
         ((assocGet s.db.data
            ("meta:" ++ (Nat.repr entry.meta.id ++ ":" ++ Nat.repr n.d_id))).map
            Val.fromUtf8Lossy).getD "",
         ((assocGet s.db.data
            ("content:" ++ (Nat.repr entry.meta.id ++ ":" ++ Nat.repr n.d_id))).map
            Val.fromUtf8Lossy).getD ""))) := by
  unfold VectorDB.search
  rw [hs]
  dsimp only
  rw [if_neg (by rw [hq]; exact fun h => h rfl)]
  exact searchLoop_ok s.db entry.meta.id _ hok

/-- Witness for C10: two hits; the first has a stored metadata payload
and a missing content payload (which yields `""`), the second has both
payloads missing. -/
theorem c10_witness :
    let sP : VectorDB Nat :=
      { db := { data := [("meta:1:1", Val.strBytes "hello")], failing := [] },
        collections := [("c",
          { meta := { id := 1, name := "c", dim := 1,
                      metric := DistanceMetric.Cosine, doc_count := 2 },
            index := [(1, [5]), (2, [6])] })],
        id_counter := 3 }
    VectorDB.search
      (fun _ _ _ _ => [{ d_id := 1, distance := 0 }, { d_id := 2, distance := 4 }])
      sP "c" [9] 2 =
      RRes.ok [(1, 0, "hello", ""), (2, 4, "", "")] := by
  intro sP
  exact (c10_search_returns_payload_in_index_order
    (fun _ _ _ _ => [{ d_id := 1, distance := 0 }, { d_id := 2, distance := 4 }])
    sP "c" [9] 2
    { meta := { id := 1, name := "c", dim := 1,
                metric := DistanceMetric.Cosine, doc_count := 2 },
      index := [(1, [5]), (2, [6])] } rfl rfl (by decide)).trans (by decide)

end VecDB
